import Mathlib

/-!
Verification of the `sensor_package` Metriful MS430 driver
(`src/Python/Raspberry_Pi/sensor_package/`): a shallow embedding of the
mode controller (`sensor_mode.py`), the cycle status flag
(`cycle_status.py`), the constants table (`sensor_constants.py`), and the
ready-wait / measurement / decoding layer of `sensor.py`, together with
theorems settling the specification claims.

Modelling conventions:
* Python `int` values are `Int` (mode and sensor selectors, which callers
  may pass arbitrarily) or `Nat` (register addresses, command bytes and
  raw data bytes, which the code only ever handles as non-negative).
* Python `float` arithmetic on the decoded values is modelled exactly over
  `ℚ` (the decoders only add small integers and divide by 10 or 100).
* Python exceptions are modelled by an error type carrying the message;
  a function that can raise returns `Except PyError _`, and a method that
  mutates `self` and can raise mid-way returns the final attribute state
  together with `Option PyError`.
* I2C traffic is modelled as a list of explicit bus operations, so that
  "issues a read" / "writes a byte" claims are statements about that list.
-/

namespace SensorPkg

/-- Python exception values raised by the package, tagged with the kind of
exception and its message string. -/
inductive PyError where
  | valueError (msg : String)
  | typeError (msg : String)
  | attributeError (msg : String)
  | ioError (msg : String)
  | exception (msg : String)
deriving DecidableEq, Repr

/-- Bus operations performed on the smbus I2C object
(`write_byte`, `write_i2c_block_data`, `read_i2c_block_data`). -/
inductive BusOp where
  | write_byte (addr : Nat) (value : Nat)
  | write_block (addr : Nat) (register : Nat) (data : List Nat)
  | read_block (addr : Nat) (register : Nat) (length : Nat)
deriving DecidableEq, Repr

/-- Whether a bus operation is a block read (as opposed to any write). -/
def BusOp.is_read : BusOp → Bool
  | BusOp.read_block _ _ _ => true
  | _ => false

namespace SensorConstants

/-- Register for setting the cycle time period (sensor_constants.py). -/
def cycle_time_period_reg : Nat := 0x89

/-- Register for the sound interrupt threshold (sensor_constants.py). -/
def sound_interrupt_threshold_reg : Nat := 0x86

/-- Register for the light interrupt threshold (sensor_constants.py). -/
def light_interrupt_threshold_reg : Nat := 0x82

/-- Trigger command byte for an on-demand measurement. -/
def on_demand_measure_cmd : Nat := 0xE1

/-- Reset command byte. -/
def reset_cmd : Nat := 0xE2

/-- Trigger command byte for cycle mode. -/
def cycle_mode_cmd : Nat := 0xE4

/-- Trigger command byte for standby mode. -/
def standby_mode_cmd : Nat := 0xE5

/-- Bulk-read register for the air data category. -/
def air_data_read : Nat := 0x10

/-- Bulk-read register for the air quality data category. -/
def air_quality_data_read : Nat := 0x11

/-- Bulk-read register for the light data category. -/
def light_data_read : Nat := 0x12

/-- Bulk-read register for the sound data category. -/
def sound_data_read : Nat := 0x13

/-- Bulk-read register for the particle data category. -/
def particle_data_read : Nat := 0x14

/-- I2C 7-bit address with the solder bridge open. -/
def i2c_addr_7bit_sb_open : Nat := 0x71

/-- Duplicate of the open-solder-bridge address (as in the source). -/
def i2c_7bit_address : Nat := i2c_addr_7bit_sb_open

/-- Device mode value: standby. -/
def standby_mode : Int := 0

/-- Device mode value: cycle. -/
def cycle_mode : Int := 1

/-- Device mode value: on demand. -/
def on_demand : Int := 2

/-- Number of frequency bands for sound level measurement. -/
def sound_freq_bands : Nat := 6

/-- Maximum value for illuminance measurement and threshold setting. -/
def max_lux_value : Nat := 3774

/-- Mask extracting the magnitude bits of the first temperature byte. -/
def temperature_value_mask : Nat := 0x7F

/-- Mask extracting the sign bit of the first temperature byte. -/
def temperature_sign_mask : Nat := 0x80

/-- Particle sensor selector: no sensor connected. -/
def particle_sensor_off : Int := 0

/-- Particle sensor selector: Shinyei PPD42. -/
def particle_sensor_ppd42 : Int := 1

/-- Particle sensor selector: Nova SDS011. -/
def particle_sensor_sds011 : Int := 2

/-- Byte length of the air data category block. -/
def air_data_bytes : Nat := 12

/-- Byte length of the air quality data category block. -/
def air_quality_data_bytes : Nat := 10

/-- Byte length of the light data category block. -/
def light_data_bytes : Nat := 5

/-- Byte length of the sound data category block. -/
def sound_data_bytes : Nat := 18

/-- Byte length of the particle data category block. -/
def particle_data_bytes : Nat := 6

end SensorConstants

namespace UnicodeConstants

/-- Concentration unit string for the SDS011 sensor (micrograms per cubic
meter, unicode_constants.py). -/
def sds011_conc : String := "µg/m³"

end UnicodeConstants

/-- Python `x or d` on an optional integer `x`: both `None` and `0` are
falsy, so they are replaced by the default `d`. -/
def pyOrInt (x : Option Int) (d : Int) : Int :=
  match x with
  | none => d
  | some v => if v = 0 then d else v

/-- Attribute state of a `SensorMode` instance.  Each field is `none` while
the corresponding Python instance attribute has not been assigned. -/
structure SensorModeState where
  mode_name : Option String := none
  cycle_time : Option Int := none
  mode_value : Option Int := none
  trigger_byte : Option Nat := none
deriving DecidableEq, Repr

namespace SensorMode

/-- SensorMode.validate_mode: membership of the mode value in
`[standby_mode, cycle_mode, on_demand]`. -/
def validate_mode (mode : Int) : Bool :=
  decide (mode = SensorConstants.standby_mode
    ∨ mode = SensorConstants.cycle_mode
    ∨ mode = SensorConstants.on_demand)

/-- Whether `SensorMode` instances expose an attribute named
`SensorConstants`.  The body of `set_mode` evaluates
`self.SensorConstants()`, but the class defines no such attribute (the
constants class is only a module-level import), so at runtime that
attribute lookup raises `AttributeError`. -/
def has_attr_sensor_constants : Bool := false

/-- Message of the AttributeError raised by the `self.SensorConstants()`
lookup inside `set_mode`. -/
def attr_error_msg : String :=
  "SensorMode object has no attribute SensorConstants"

/-- The ValueError message raised by `set_mode` for an invalid mode. -/
def value_error_msg (mode : Int) : String :=
  "The given mode value " ++ toString mode ++ " is not supported."

/-- SensorMode.set_mode, as a transformer of the instance attribute state.
It validates the mode (raising ValueError and leaving the state untouched
otherwise); on a valid mode it assigns `mode_name` and `mode_value` and
then evaluates `self.SensorConstants()` for the trigger byte, which raises
AttributeError (see `has_attr_sensor_constants`) before `trigger_byte` is
assigned. -/
def set_mode (s : SensorModeState) (mode : Int) :
    SensorModeState × Option PyError :=
  if validate_mode mode = false then
    (s, some (PyError.valueError (value_error_msg mode)))
  else if mode = SensorConstants.standby_mode then
    let s1 := { s with mode_name := some "standby", mode_value := some mode }
    if has_attr_sensor_constants then
      ({ s1 with trigger_byte := some SensorConstants.standby_mode_cmd }, none)
    else
      (s1, some (PyError.attributeError attr_error_msg))
  else if mode = SensorConstants.cycle_mode then
    let s1 := { s with mode_name := some "cycle", mode_value := some mode }
    if has_attr_sensor_constants then
      ({ s1 with trigger_byte := some SensorConstants.cycle_mode_cmd }, none)
    else
      (s1, some (PyError.attributeError attr_error_msg))
  else if mode = SensorConstants.on_demand then
    let s1 :=
      { s with mode_name := some "on_demand", mode_value := some mode }
    if has_attr_sensor_constants then
      ({ s1 with
          trigger_byte := some SensorConstants.on_demand_measure_cmd }, none)
    else
      (s1, some (PyError.attributeError attr_error_msg))
  else
    (s, none)

/-- Number of parameters besides `self` in the definition
`def set_mode(self, mode):`. -/
def set_mode_param_count : Nat := 1

/-- Number of arguments besides `self` that `SensorMode.__init__` passes in
the call `self.set_mode(mode, cycle_time)`. -/
def init_set_mode_arg_count : Nat := 2

/-- Message of the TypeError raised by calling `set_mode` with two
positional arguments. -/
def type_error_msg : String :=
  "set_mode() takes 2 positional arguments but 3 were given"

/-- SensorMode.__init__: applies the Python `or` defaults, assigns
`self.cycle_time`, and then calls `self.set_mode(mode, cycle_time)`.
Since the call supplies more positional arguments than `set_mode`
declares, Python raises TypeError at the call, before the body of
`set_mode` runs. -/
def init (mode cycle_time : Option Int) : SensorModeState × Option PyError :=
  let m := pyOrInt mode SensorConstants.on_demand
  let s : SensorModeState :=
    { mode_name := none, cycle_time := some (pyOrInt cycle_time 5),
      mode_value := none, trigger_byte := none }
  if init_set_mode_arg_count ≠ set_mode_param_count then
    (s, some (PyError.typeError type_error_msg))
  else
    set_mode s m

end SensorMode

namespace Sensor

/-- Sensor.change_sensor_mode: constructs a fresh `SensorMode`; an
exception raised by the constructor propagates to the caller and the
sensor keeps no new mode. -/
def change_sensor_mode (mode cycle_time : Option Int) :
    Except PyError SensorModeState :=
  match SensorMode.init mode cycle_time with
  | (_, some e) => Except.error e
  | (s, none) => Except.ok s

/-- The step of Sensor.__init__ that constructs `self.mode`
(`SensorMode(mode, cycle_time)`); this runs before any hardware setup, and
an exception raised there propagates out of the constructor. -/
def init_mode (mode cycle_time : Option Int) :
    Except PyError SensorModeState :=
  match SensorMode.init mode cycle_time with
  | (_, some e) => Except.error e
  | (s, none) => Except.ok s

end Sensor

/-- C2: for every combination of `mode` and `cycle_time`, constructing a
`SensorMode` raises a TypeError at the call `self.set_mode(mode,
cycle_time)` (two positional arguments passed to a method declaring one),
with `mode_name`, `mode_value` and `trigger_byte` all still unset; and
both `Sensor.__init__`'s mode construction and `Sensor.change_sensor_mode`
therefore fail with that TypeError for every input. -/
theorem sensor_mode_init_always_type_error (mode cycle_time : Option Int) :
    (SensorMode.init mode cycle_time).2
        = some (PyError.typeError SensorMode.type_error_msg)
      ∧ (SensorMode.init mode cycle_time).1.mode_name = none
      ∧ (SensorMode.init mode cycle_time).1.mode_value = none
      ∧ (SensorMode.init mode cycle_time).1.trigger_byte = none
      ∧ Sensor.change_sensor_mode mode cycle_time
        = Except.error (PyError.typeError SensorMode.type_error_msg)
      ∧ Sensor.init_mode mode cycle_time
        = Except.error (PyError.typeError SensorMode.type_error_msg) := by
  refine ⟨rfl, rfl, rfl, rfl, ?_, ?_⟩ <;>
    simp [Sensor.change_sensor_mode, Sensor.init_mode, SensorMode.init,
      SensorMode.init_set_mode_arg_count, SensorMode.set_mode_param_count]

/-- C1: for every integer mode outside {0, 1, 2}, `set_mode` raises a
ValueError and leaves the whole attribute state unchanged; but for each of
the valid modes 0, 1, 2 it does not succeed: after assigning `mode_name`
and `mode_value` it raises an AttributeError at `self.SensorConstants()`,
so `trigger_byte` is never assigned the documented command byte. -/
theorem set_mode_invalid_rejected_valid_attribute_error
    (s : SensorModeState) (mode : Int)
    (h : ¬(mode = 0 ∨ mode = 1 ∨ mode = 2)) :
    SensorMode.set_mode s mode
        = (s, some (PyError.valueError (SensorMode.value_error_msg mode)))
      ∧ SensorMode.set_mode s 0
        = ({ s with mode_name := some "standby", mode_value := some 0 },
           some (PyError.attributeError SensorMode.attr_error_msg))
      ∧ SensorMode.set_mode s 1
        = ({ s with mode_name := some "cycle", mode_value := some 1 },
           some (PyError.attributeError SensorMode.attr_error_msg))
      ∧ SensorMode.set_mode s 2
        = ({ s with mode_name := some "on_demand", mode_value := some 2 },
           some (PyError.attributeError SensorMode.attr_error_msg)) := by
  refine ⟨?_, rfl, rfl, rfl⟩
  have hv : SensorMode.validate_mode mode = false := by
    simp [SensorMode.validate_mode, SensorConstants.standby_mode,
      SensorConstants.cycle_mode, SensorConstants.on_demand]
    omega
  simp [SensorMode.set_mode, hv]

/-- Witness for C1's theorem at the invalid mode 7 and the standby mode 0,
on an empty attribute state. -/
theorem set_mode_invalid_rejected_valid_attribute_error_inst :
    SensorMode.set_mode {} 7
        = ({}, some (PyError.valueError (SensorMode.value_error_msg 7)))
      ∧ SensorMode.set_mode {} 0
        = ({ mode_name := some "standby", mode_value := some 0,
             cycle_time := none, trigger_byte := none },
           some (PyError.attributeError SensorMode.attr_error_msg)) := by
  have h := set_mode_invalid_rejected_valid_attribute_error {} 7 (by decide)
  exact ⟨h.1, h.2.1⟩

/-- Result of `Sensor._extract_air_data`. -/
structure AirData where
  temp_c : ℚ
  temp_f : ℚ
  pressure : Nat
  humidity : ℚ
  gas_sensor_resistance : Nat
deriving DecidableEq, Repr

/-- Result of `Sensor._extract_air_quality_data`. -/
structure AirQualityData where
  aqi : ℚ
  co2e : ℚ
  bvoc : ℚ
  aqi_accuracy : Nat
  int_aqi : String
  int_aqi_accuracy : String
deriving DecidableEq, Repr

/-- Result of `Sensor._extract_light_data`. -/
structure LightData where
  lux : ℚ
  white : Nat
deriving DecidableEq, Repr

/-- Result of `Sensor._extract_sound_data`; the six per-band levels are
listed in band order. -/
structure SoundData where
  spl_dba : ℚ
  spl_bands_db : List ℚ
  peak_amp : ℚ
  stable : Nat
deriving DecidableEq, Repr

/-- Result of `Sensor._extract_particle_data`.  Fields are `none` when the
corresponding instance attribute is set to Python `None` (sensor off) or
left unassigned (`conc_unit` for an unrecognized sensor selector). -/
structure ParticleData where
  duty_cycle_pc : Option ℚ
  concentration : Option ℚ
  conc_unit : Option String
  particle_data_valid : Bool
deriving DecidableEq, Repr

namespace Sensor

/-- Byte access `raw[i]` on a raw data block; the decoders only use it at
indices below the validated block length. -/
def byte (raw : List Nat) (i : Nat) : Nat := raw.getD i 0

/-- Sensor.interpret_aqi_value: the readable interpretation of the numeric
air quality index. -/
def interpret_aqi_value (aqi : ℚ) : String :=
  if aqi < 50 then "Good"
  else if aqi < 100 then "Acceptable"
  else if aqi < 150 then "Substandard"
  else if aqi < 200 then "Poor"
  else if aqi < 300 then "Bad"
  else "Very bad"

/-- Sensor.interpret_aqi_accuracy: the readable interpretation of the AQI
accuracy code. -/
def interpret_aqi_accuracy (aqi_accuracy : Nat) : String :=
  if aqi_accuracy = 1 then "Low accuracy, self-calibration ongoing"
  else if aqi_accuracy = 2 then "Medium accuracy, self-calibration ongoing"
  else if aqi_accuracy = 3 then "High accuracy"
  else "Not yet valid, self-calibration incomplete"

/-- Sensor._extract_air_data: validates the block length, then decodes the
sign-magnitude temperature, Fahrenheit conversion, little-endian pressure,
humidity and little-endian gas sensor resistance. -/
def _extract_air_data (raw : List Nat) : Except PyError AirData :=
  if raw.length ≠ SensorConstants.air_data_bytes then
    Except.error (PyError.exception "Incorrect number of Air Data bytes")
  else
    let b := byte raw
    let magnitude : ℚ :=
      ((b 0 &&& SensorConstants.temperature_value_mask : Nat) : ℚ)
        + (b 1 : ℚ) / 10
    let temp_c : ℚ :=
      if (b 0 &&& SensorConstants.temperature_sign_mask) ≠ 0 then
        -magnitude
      else
        magnitude
    Except.ok
      { temp_c := temp_c
        temp_f := temp_c * (18 / 10 : ℚ) + 32
        pressure := (b 5 <<< 24) + (b 4 <<< 16) + (b 3 <<< 8) + b 2
        humidity := (b 6 : ℚ) + (b 7 : ℚ) / 10
        gas_sensor_resistance :=
          (b 11 <<< 24) + (b 10 <<< 16) + (b 9 <<< 8) + b 8 }

/-- Sensor._extract_air_quality_data: validates the block length, then
decodes AQI, CO2e, bVOC and the accuracy code, and attaches their readable
interpretations. -/
def _extract_air_quality_data (raw : List Nat) : Except PyError AirQualityData :=
  if raw.length ≠ SensorConstants.air_quality_data_bytes then
    Except.error
      (PyError.exception "Incorrect number of Air Quality Data bytes")
  else
    let b := byte raw
    let aqi : ℚ := (b 0 : ℚ) + ((b 1 <<< 8 : Nat) : ℚ) + (b 2 : ℚ) / 10
    Except.ok
      { aqi := aqi
        co2e := (b 3 : ℚ) + ((b 4 <<< 8 : Nat) : ℚ) + (b 5 : ℚ) / 10
        bvoc := (b 6 : ℚ) + ((b 7 <<< 8 : Nat) : ℚ) + (b 8 : ℚ) / 100
        aqi_accuracy := b 9
        int_aqi := interpret_aqi_value aqi
        int_aqi_accuracy := interpret_aqi_accuracy (b 9) }

/-- Sensor._extract_light_data: validates the block length, then decodes
the illuminance and the white light level.  No capping is applied. -/
def _extract_light_data (raw : List Nat) : Except PyError LightData :=
  if raw.length ≠ SensorConstants.light_data_bytes then
    Except.error
      (PyError.exception
        "Incorrect number of Light Data bytes supplied to function")
  else
    let b := byte raw
    Except.ok
      { lux := (b 0 : ℚ) + ((b 1 <<< 8 : Nat) : ℚ) + (b 2 : ℚ) / 100
        white := b 3 + (b 4 <<< 8) }

/-- Sensor._extract_sound_data: validates the block length, then decodes
the A-weighted level, the six per-band levels (integer bytes at offsets
2..7 paired with fractional bytes at offsets 8..13), the peak amplitude at
offsets 14..16 and the stability byte at offset 17. -/
def _extract_sound_data (raw : List Nat) : Except PyError SoundData :=
  if raw.length ≠ SensorConstants.sound_data_bytes then
    Except.error
      (PyError.exception
        "Incorrect number of Sound Data bytes supplied to function")
  else
    let b := byte raw
    Except.ok
      { spl_dba := (b 0 : ℚ) + (b 1 : ℚ) / 10
        spl_bands_db :=
          (List.range SensorConstants.sound_freq_bands).map
            (fun i => (b (2 + i) : ℚ)
              + (b (2 + i + SensorConstants.sound_freq_bands) : ℚ) / 10)
        peak_amp :=
          (b 14 : ℚ) + ((b 15 <<< 8 : Nat) : ℚ) + (b 16 : ℚ) / 100
        stable := b 17 }

/-- Sensor._extract_particle_data: when the configured particle sensor is
`particle_sensor_off` it returns immediately with all fields null and the
validity flag false, before the length check; otherwise it validates the
block length and decodes duty cycle, concentration, validity flag and the
concentration unit selected by the configured sensor type. -/
def _extract_particle_data (particle_sensor : Int) (raw : List Nat) :
    Except PyError ParticleData :=
  if particle_sensor = SensorConstants.particle_sensor_off then
    Except.ok
      { duty_cycle_pc := none, concentration := none, conc_unit := none,
        particle_data_valid := false }
  else if raw.length ≠ SensorConstants.particle_data_bytes then
    Except.error
      (PyError.exception
        "Incorrect number of Particle Data bytes supplied to function")
  else
    let b := byte raw
    Except.ok
      { duty_cycle_pc := some ((b 0 : ℚ) + (b 1 : ℚ) / 100)
        concentration :=
          some ((b 2 : ℚ) + ((b 3 <<< 8 : Nat) : ℚ) + (b 4 : ℚ) / 100)
        conc_unit :=
          if particle_sensor = SensorConstants.particle_sensor_ppd42 then
            some "ppL"
          else if particle_sensor = SensorConstants.particle_sensor_sds011 then
            some UnicodeConstants.sds011_conc
          else
            none
        particle_data_valid := b 5 > 0 }

end Sensor

/-- The raw blocks a device returns for the five category bulk reads of
one measurement. -/
structure DeviceBlocks where
  air : List Nat
  air_quality : List Nat
  light : List Nat
  sound : List Nat
  particle : List Nat
deriving DecidableEq, Repr

/-- Aggregate of the five decoded categories of one measurement. -/
structure SensorData where
  air : AirData
  air_quality : AirQualityData
  light : LightData
  sound : SoundData
  particle : ParticleData
deriving DecidableEq, Repr

namespace Sensor

/-- Sensor.get_air_data: issues the bulk read of the air category and
decodes the returned block. -/
def get_air_data (raw : List Nat) : List BusOp × Except PyError AirData :=
  ([BusOp.read_block SensorConstants.i2c_addr_7bit_sb_open
      SensorConstants.air_data_read SensorConstants.air_data_bytes],
   _extract_air_data raw)

/-- Sensor.get_air_quality_data: issues the bulk read of the air quality
category and decodes the returned block. -/
def get_air_quality_data (raw : List Nat) :
    List BusOp × Except PyError AirQualityData :=
  ([BusOp.read_block SensorConstants.i2c_addr_7bit_sb_open
      SensorConstants.air_quality_data_read
      SensorConstants.air_quality_data_bytes],
   _extract_air_quality_data raw)

/-- Sensor.get_light_data: issues the bulk read of the light category and
decodes the returned block. -/
def get_light_data (raw : List Nat) : List BusOp × Except PyError LightData :=
  ([BusOp.read_block SensorConstants.i2c_addr_7bit_sb_open
      SensorConstants.light_data_read SensorConstants.light_data_bytes],
   _extract_light_data raw)

/-- Sensor.get_sound_data: issues the bulk read of the sound category and
decodes the returned block. -/
def get_sound_data (raw : List Nat) : List BusOp × Except PyError SoundData :=
  ([BusOp.read_block SensorConstants.i2c_addr_7bit_sb_open
      SensorConstants.sound_data_read SensorConstants.sound_data_bytes],
   _extract_sound_data raw)

/-- Sensor.get_particle_data: issues the bulk read of the particle
category unconditionally (the particle-sensor configuration is only
examined afterwards, inside `_extract_particle_data`) and decodes the
returned block. -/
def get_particle_data (particle_sensor : Int) (raw : List Nat) :
    List BusOp × Except PyError ParticleData :=
  ([BusOp.read_block SensorConstants.i2c_addr_7bit_sb_open
      SensorConstants.particle_data_read SensorConstants.particle_data_bytes],
   _extract_particle_data particle_sensor raw)

/-- Sensor._get_all_data: reads and decodes the five categories in the
fixed order air, air quality, light, sound, particle.  The first decoding
exception aborts the sequence; the bus operations issued up to that point
are reported alongside the outcome. -/
def _get_all_data (particle_sensor : Int) (d : DeviceBlocks) :
    List BusOp × Except PyError SensorData :=
  let (o1, r1) := get_air_data d.air
  match r1 with
  | Except.error e => (o1, Except.error e)
  | Except.ok air =>
    let (o2, r2) := get_air_quality_data d.air_quality
    match r2 with
    | Except.error e => (o1 ++ o2, Except.error e)
    | Except.ok aq =>
      let (o3, r3) := get_light_data d.light
      match r3 with
      | Except.error e => (o1 ++ o2 ++ o3, Except.error e)
      | Except.ok light =>
        let (o4, r4) := get_sound_data d.sound
        match r4 with
        | Except.error e => (o1 ++ o2 ++ o3 ++ o4, Except.error e)
        | Except.ok sound =>
          let (o5, r5) := get_particle_data particle_sensor d.particle
          match r5 with
          | Except.error e => (o1 ++ o2 ++ o3 ++ o4 ++ o5, Except.error e)
          | Except.ok particle =>
            (o1 ++ o2 ++ o3 ++ o4 ++ o5,
             Except.ok { air := air, air_quality := aq, light := light,
                         sound := sound, particle := particle })

/-- Timeout in seconds for waiting on the ready pin (`Sensor.TIMEOUT`). -/
def TIMEOUT : Nat := 5

/-- Message of the IOError raised by `is_ready` when the ready pin is not
triggered within the timeout (the two string literals of the source are
concatenated without a separating space). -/
def ready_timeout_msg : String :=
  "Ready pin not triggered within 5 second." ++
    "Please check the setup and try again."

/-- Polling loop of Sensor.is_ready, with time idealized to exact 50 ms
sleeps: `events i` tells whether `gpio.event_detected` reports a falling
edge at the i-th check; after a failed check the loop sleeps 50 ms and
raises IOError once the elapsed time exceeds the 5 s timeout, which
happens right after the check at i = 100 fails (elapsed 5.05 s > 5 s).
`remaining` counts the checks left before that point. -/
def is_ready_poll (events : Nat → Bool) : Nat → Nat → Except PyError Bool
  | i, 0 =>
    if events i then Except.ok true
    else Except.error (PyError.ioError ready_timeout_msg)
  | i, remaining + 1 =>
    if events i then Except.ok true
    else is_ready_poll events (i + 1) remaining

/-- Sensor.is_ready: polls the edge-detection state from the first check
(i = 0) with at most 100 further checks before the timeout fires. -/
def is_ready (events : Nat → Bool) : Except PyError Bool :=
  is_ready_poll events 0 100

/-- Outcome of one Sensor.measure call: the bus operations issued, the
exception printed by one of its `except` handlers (if any), the exception
propagated to the caller (if any), and the decoded data on success. -/
structure MeasureResult where
  ops : List BusOp
  printed : Option PyError
  raised : Option PyError
  data : Option SensorData
deriving DecidableEq, Repr

/-- Sensor.measure: writes the trigger byte of the current mode, waits for
readiness and reads all categories.  Both the IOError from `is_ready` and
any other exception from `_get_all_data` are caught by the surrounding
`except IOError` / `except Exception` handlers and printed, so no
exception ever propagates to the caller of `measure`. -/
def measure (trigger_byte : Nat) (events : Nat → Bool)
    (particle_sensor : Int) (d : DeviceBlocks) : MeasureResult :=
  let trig := BusOp.write_byte SensorConstants.i2c_7bit_address trigger_byte
  match is_ready events with
  | Except.error e =>
    { ops := [trig], printed := some e, raised := none, data := none }
  | Except.ok _ =>
    match _get_all_data particle_sensor d with
    | (ops, Except.error e) =>
      { ops := trig :: ops, printed := some e, raised := none, data := none }
    | (ops, Except.ok sd) =>
      { ops := trig :: ops, printed := none, raised := none, data := some sd }

end Sensor

/-- Attribute state of a CycleStatus instance (cycle_status.py). -/
structure CycleStatus where
  active : Bool
deriving DecidableEq, Repr

/-- CycleStatus.is_active: returns the active flag (when actually
called). -/
def CycleStatus.is_active (s : CycleStatus) : Bool := s.active

namespace Sensor

/-- Sensor.stop_cycle: sets the cancellation flag to False. -/
def stop_cycle (s : CycleStatus) : CycleStatus := { s with active := false }

/-- Truthiness of a bound method object in Python: always true.  The loop
condition of `_run_cycle` reads `self.cycle_status.is_active` without call
parentheses, so it tests the truthiness of the bound method object rather
than the value of the flag. -/
def bound_method_truthy : Bool := true

/-- Loop condition of Sensor._run_cycle:
`self.cycle_status.is_active or count <= 20`, where the first operand is
the uncalled bound method (see `bound_method_truthy`); the value of the
`active` flag held by `status` is therefore never consulted. -/
def run_cycle_loop_condition (_status : CycleStatus) (count : Nat) : Bool :=
  bound_method_truthy || decide (count ≤ 20)

/-- Bus operations of one iteration of the `_run_cycle` loop body: the
body calls `is_ready` (no bus traffic) and `_get_all_data` (block reads);
no exit path of `_run_cycle` performs any bus write, in particular no
standby trigger is ever written by the loop. -/
def run_cycle_iteration_ops (particle_sensor : Int) (d : DeviceBlocks) :
    List BusOp :=
  (_get_all_data particle_sensor d).1

/-- Sensor.set_sound_interrupt_threshold: splits the 16-bit threshold into
[LSB, MSB] and writes the pair to the sound interrupt threshold
register. -/
def set_sound_interrupt_threshold (peak : Nat) : List BusOp :=
  [BusOp.write_block SensorConstants.i2c_addr_7bit_sb_open
    SensorConstants.sound_interrupt_threshold_reg
    [peak &&& 0x00FF, peak >>> 8]]

end Sensor

/-- C6: for every 12-byte air block, the decoded temperature is
sign-magnitude with one fractional decimal digit: the magnitude is
`(byte0 &&& 0x7F) + byte1 / 10`, negated exactly when `byte0 &&& 0x80` is
nonzero; in particular bytes [0x16, 0x05] decode to 22.5 °C and bytes
[0x96, 0x05] decode to −22.5 °C. -/
theorem air_temperature_sign_magnitude :
    (∀ raw : List Nat, raw.length = 12 →
      (Sensor._extract_air_data raw).toOption.map AirData.temp_c
        = some (if raw.getD 0 0 &&& 0x80 ≠ 0 then
            -(((raw.getD 0 0 &&& 0x7F : Nat) : ℚ) + (raw.getD 1 0 : ℚ) / 10)
          else
            ((raw.getD 0 0 &&& 0x7F : Nat) : ℚ) + (raw.getD 1 0 : ℚ) / 10))
    ∧ (Sensor._extract_air_data
        [0x16, 0x05, 0, 0, 0, 0, 0, 0, 0, 0, 0, 0]).toOption.map AirData.temp_c
      = some (45 / 2)
    ∧ (Sensor._extract_air_data
        [0x96, 0x05, 0, 0, 0, 0, 0, 0, 0, 0, 0, 0]).toOption.map AirData.temp_c
      = some (-(45 / 2)) := by
  have main : ∀ raw : List Nat, raw.length = 12 →
      (Sensor._extract_air_data raw).toOption.map AirData.temp_c
        = some (if raw.getD 0 0 &&& 0x80 ≠ 0 then
            -(((raw.getD 0 0 &&& 0x7F : Nat) : ℚ) + (raw.getD 1 0 : ℚ) / 10)
          else
            ((raw.getD 0 0 &&& 0x7F : Nat) : ℚ) + (raw.getD 1 0 : ℚ) / 10) := by
    intro raw h
    unfold Sensor._extract_air_data
    rw [if_neg (by simp [h, SensorConstants.air_data_bytes])]
    rfl
  refine ⟨main, ?_, ?_⟩
  · rw [main [0x16, 0x05, 0, 0, 0, 0, 0, 0, 0, 0, 0, 0] (by rfl)]
    norm_num [show (22 &&& 128 : Nat) = 0 from by decide,
      show (22 &&& 127 : Nat) = 22 from by decide]
  · rw [main [0x96, 0x05, 0, 0, 0, 0, 0, 0, 0, 0, 0, 0] (by rfl)]
    norm_num [show (150 &&& 128 : Nat) = 128 from by decide,
      show (150 &&& 127 : Nat) = 22 from by decide]

/-- Witness for the C6 theorem at the concrete block
[0x16, 0x05, 0, ..., 0]. -/
theorem air_temperature_sign_magnitude_witness :
    (Sensor._extract_air_data
        [22, 5, 0, 0, 0, 0, 0, 0, 0, 0, 0, 0]).toOption.map AirData.temp_c
      = some (45 / 2) := by
  have h := air_temperature_sign_magnitude.1
    [22, 5, 0, 0, 0, 0, 0, 0, 0, 0, 0, 0] (by rfl)
  rw [h]
  norm_num [show (22 &&& 128 : Nat) = 0 from by decide,
    show (22 &&& 127 : Nat) = 22 from by decide]

/-- C7: the AQI interpretation is a total function of the numeric AQI with
inclusive upper band boundaries: below 50 "Good", 50–100 "Acceptable",
100–150 "Substandard", 150–200 "Poor", 200–300 "Bad", at or above 300
"Very bad"; in particular 49.9 maps to "Good", 50.0 to "Acceptable",
299.9 to "Bad" and 300.0 to "Very bad". -/
theorem interpret_aqi_value_bands (aqi : ℚ) :
    (aqi < 50 → Sensor.interpret_aqi_value aqi = "Good")
      ∧ (50 ≤ aqi → aqi < 100 →
          Sensor.interpret_aqi_value aqi = "Acceptable")
      ∧ (100 ≤ aqi → aqi < 150 →
          Sensor.interpret_aqi_value aqi = "Substandard")
      ∧ (150 ≤ aqi → aqi < 200 → Sensor.interpret_aqi_value aqi = "Poor")
      ∧ (200 ≤ aqi → aqi < 300 → Sensor.interpret_aqi_value aqi = "Bad")
      ∧ (300 ≤ aqi → Sensor.interpret_aqi_value aqi = "Very bad")
      ∧ Sensor.interpret_aqi_value (499 / 10) = "Good"
      ∧ Sensor.interpret_aqi_value 50 = "Acceptable"
      ∧ Sensor.interpret_aqi_value (2999 / 10) = "Bad"
      ∧ Sensor.interpret_aqi_value 300 = "Very bad" := by
  unfold Sensor.interpret_aqi_value
  refine ⟨?_, ?_, ?_, ?_, ?_, ?_,
      by norm_num, by norm_num, by norm_num, by norm_num⟩
    <;> intros <;> split_ifs <;> first | rfl | (exfalso; linarith)

/-- Witness for the C7 theorem inside the 50–100 band, at AQI 75. -/
theorem interpret_aqi_value_bands_witness :
    Sensor.interpret_aqi_value 75 = "Acceptable" :=
  (interpret_aqi_value_bands 75).2.1 (by norm_num) (by norm_num)

/-- C8 counterexample: the particulate decoder does not validate its input
length when no particle sensor is configured — on the 3-byte input
[0, 0, 0] (declared length 6) it succeeds with the null decode instead of
failing with a length error. -/
theorem particle_decoder_skips_length_check :
    Sensor._extract_particle_data SensorConstants.particle_sensor_off [0, 0, 0]
        = Except.ok { duty_cycle_pc := none, concentration := none,
                      conc_unit := none, particle_data_valid := false }
      ∧ ([0, 0, 0] : List Nat).length ≠ SensorConstants.particle_data_bytes := by
  exact ⟨rfl, by decide⟩

/-- C8 (amended): the air, air-quality, light and sound decoders, and the
particulate decoder whenever a particle sensor is configured, first
validate that the input has exactly the category's declared length and
fail with a length-mismatch Exception naming the category otherwise
(decoding nothing); in particular an 11-byte air block fails with the
Air Data length error.  The particulate decoder with the sensor off is the
exception: it returns the null decode without any length check. -/
theorem decoders_validate_block_length (raw : List Nat)
    (particle_sensor : Int) :
    (raw.length ≠ SensorConstants.air_data_bytes →
        Sensor._extract_air_data raw
          = Except.error
              (PyError.exception "Incorrect number of Air Data bytes"))
      ∧ (raw.length ≠ SensorConstants.air_quality_data_bytes →
          Sensor._extract_air_quality_data raw
            = Except.error
                (PyError.exception
                  "Incorrect number of Air Quality Data bytes"))
      ∧ (raw.length ≠ SensorConstants.light_data_bytes →
          Sensor._extract_light_data raw
            = Except.error
                (PyError.exception
                  "Incorrect number of Light Data bytes supplied to function"))
      ∧ (raw.length ≠ SensorConstants.sound_data_bytes →
          Sensor._extract_sound_data raw
            = Except.error
                (PyError.exception
                  "Incorrect number of Sound Data bytes supplied to function"))
      ∧ (particle_sensor ≠ SensorConstants.particle_sensor_off →
          raw.length ≠ SensorConstants.particle_data_bytes →
          Sensor._extract_particle_data particle_sensor raw
            = Except.error
                (PyError.exception
                  "Incorrect number of Particle Data bytes supplied to function"))
      ∧ Sensor._extract_air_data (List.replicate 11 0)
        = Except.error
            (PyError.exception "Incorrect number of Air Data bytes") := by
  refine ⟨?_, ?_, ?_, ?_, ?_, by rfl⟩ <;> intros <;>
    simp only [Sensor._extract_air_data, Sensor._extract_air_quality_data,
      Sensor._extract_light_data, Sensor._extract_sound_data,
      Sensor._extract_particle_data, if_pos, if_neg, *] <;>
    simp [*]

/-- Witness for the C8 theorem: a 1-byte block is rejected by the air
decoder, and by the particulate decoder when the PPD42 sensor is
configured. -/
theorem decoders_validate_block_length_witness :
    Sensor._extract_air_data [0]
        = Except.error
            (PyError.exception "Incorrect number of Air Data bytes")
      ∧ Sensor._extract_particle_data SensorConstants.particle_sensor_ppd42 [0]
        = Except.error
            (PyError.exception
              "Incorrect number of Particle Data bytes supplied to function") := by
  have h := decoders_validate_block_length [0] SensorConstants.particle_sensor_ppd42
  exact ⟨h.1 (by decide), h.2.2.2.2.1 (by decide) (by decide)⟩

/-- C4 counterexample: even with no particle sensor configured, the bulk
read of the particulate category is still issued by get_particle_data —
the list of bus operations is not empty. -/
theorem particle_bulk_read_issued_when_off :
    (Sensor.get_particle_data SensorConstants.particle_sensor_off
        [1, 2, 3, 4, 5, 6]).1 ≠ ([] : List BusOp) := by
  decide

/-- C4 (amended): when no particle sensor is configured, the particulate
decode yields null duty cycle, concentration and unit and a false validity
flag regardless of the raw input bytes; however, get_particle_data still
issues the 6-byte bulk read of the particulate category on the bus
unconditionally (the configuration is only consulted after the read). -/
theorem particle_off_null_decode_read_still_issued (raw : List Nat) :
    Sensor.get_particle_data SensorConstants.particle_sensor_off raw
      = ([BusOp.read_block SensorConstants.i2c_addr_7bit_sb_open
            SensorConstants.particle_data_read
            SensorConstants.particle_data_bytes],
         Except.ok { duty_cycle_pc := none, concentration := none,
                     conc_unit := none, particle_data_valid := false }) := rfl

/-- C10 counterexample: on the 5-byte block [255, 255, 99, 0, 0] the
decoded illuminance is 65535.99 lux, strictly above the maximum
representable value 3774, so no capping is applied by the decoder. -/
theorem light_lux_not_capped :
    Sensor._extract_light_data [255, 255, 99, 0, 0]
        = Except.ok { lux := 6553599 / 100, white := 0 }
      ∧ ¬((6553599 : ℚ) / 100 ≤ (SensorConstants.max_lux_value : ℚ)) := by
  constructor
  · unfold Sensor._extract_light_data
    rw [if_neg (by decide)]
    norm_num [Sensor.byte, show ((255 : Nat) <<< 8) = 65280 from by decide]
  · norm_num [SensorConstants.max_lux_value]

/-- C10 (amended): for every 5-byte light block, the decoded illuminance
equals byte0 + (byte1 <<< 8) + byte2 / 100 with no capping applied (the
max_lux_value constant is not consulted by the decoder), and the
white-light level equals the raw 16-bit count byte3 + (byte4 <<< 8). -/
theorem extract_light_formula (raw : List Nat)
    (h : raw.length = SensorConstants.light_data_bytes) :
    Sensor._extract_light_data raw
      = Except.ok
          { lux := (raw.getD 0 0 : ℚ) + ((raw.getD 1 0 <<< 8 : Nat) : ℚ)
                     + (raw.getD 2 0 : ℚ) / 100,
            white := raw.getD 3 0 + (raw.getD 4 0 <<< 8) } := by
  unfold Sensor._extract_light_data
  rw [if_neg (by simp [h])]
  rfl

/-- Witness for the C10 theorem at the block [1, 2, 3, 4, 5]. -/
theorem extract_light_formula_witness :
    Sensor._extract_light_data [1, 2, 3, 4, 5]
      = Except.ok { lux := 51303 / 100, white := 1284 } := by
  have h := extract_light_formula [1, 2, 3, 4, 5] (by rfl)
  rw [h]
  norm_num [show ((2 : Nat) <<< 8) = 512 from by decide,
    show ((5 : Nat) <<< 8) = 1280 from by decide]

/-- Recombining the low byte of a natural number with its remaining bits
shifted back up via bitwise or restores the number. -/
theorem low_or_high_shift (p : Nat) : p % 256 ||| (p >>> 8) <<< 8 = p := by
  apply Nat.eq_of_testBit_eq
  intro i
  rw [Nat.testBit_or, Nat.testBit_shiftLeft, Nat.testBit_shiftRight,
    show (256 : Nat) = 2 ^ 8 from by norm_num, Nat.testBit_mod_two_pow]
  by_cases h : i < 8
  · have h8 : ¬(i ≥ 8) := by omega
    simp [h, h8]
  · have h8 : i ≥ 8 := by omega
    have hi : 8 + (i - 8) = i := by omega
    simp [h, h8, hi]

/-- C9: for every 16-bit threshold p, set_sound_interrupt_threshold writes
exactly the two bytes [p &&& 0xFF, p >>> 8] (that is, [p % 256, p / 256],
each a valid byte) to the sound-threshold register in one block write, and
recombining the written bytes as low ||| (high <<< 8) reproduces p. -/
theorem set_sound_interrupt_threshold_roundtrip (peak : Nat)
    (h : peak < 65536) :
    Sensor.set_sound_interrupt_threshold peak
        = [BusOp.write_block SensorConstants.i2c_addr_7bit_sb_open
            SensorConstants.sound_interrupt_threshold_reg
            [peak % 256, peak / 256]]
      ∧ (peak &&& 0x00FF) ||| ((peak >>> 8) <<< 8) = peak
      ∧ peak % 256 < 256 ∧ peak / 256 < 256 := by
  have hand : peak &&& 0x00FF = peak % 256 := by
    have := Nat.and_pow_two_sub_one_eq_mod peak 8
    norm_num at this
    exact this
  have hshift : peak >>> 8 = peak / 256 := by
    rw [Nat.shiftRight_eq_div_pow]
  refine ⟨?_, ?_, Nat.mod_lt _ (by norm_num), by omega⟩
  · simp [Sensor.set_sound_interrupt_threshold, hand, hshift]
  · rw [hand, low_or_high_shift]

/-- Witness for the C9 theorem at the threshold 0xABCD. -/
theorem set_sound_interrupt_threshold_roundtrip_witness :
    Sensor.set_sound_interrupt_threshold 0xABCD
        = [BusOp.write_block SensorConstants.i2c_addr_7bit_sb_open
            SensorConstants.sound_interrupt_threshold_reg [0xCD, 0xAB]]
      ∧ (0xABCD &&& 0x00FF) ||| ((0xABCD >>> 8) <<< 8) = 0xABCD := by
  have h := set_sound_interrupt_threshold_roundtrip 0xABCD (by norm_num)
  refine ⟨?_, h.2.1⟩
  rw [h.1]

/-- If no falling-edge event is ever detected, every run of the is_ready
polling loop ends in the timeout IOError. -/
theorem is_ready_poll_all_false (events : Nat → Bool)
    (h : ∀ i, events i = false) :
    ∀ remaining i, Sensor.is_ready_poll events i remaining
      = Except.error (PyError.ioError Sensor.ready_timeout_msg) := by
  intro remaining
  induction remaining with
  | zero => intro i; simp [Sensor.is_ready_poll, h]
  | succ n ih => intro i; simp [Sensor.is_ready_poll, h, ih]

/-- C5 counterexample: with a device that never signals readiness, the
IOError raised by is_ready is caught and printed inside measure, and
nothing is raised to the caller of measure — the error is not surfaced. -/
theorem ready_timeout_not_surfaced_to_caller :
    (Sensor.measure 0xE1 (fun _ => false) 0
        ⟨[], [], [], [], []⟩).raised = none
      ∧ (Sensor.measure 0xE1 (fun _ => false) 0
          ⟨[], [], [], [], []⟩).printed
        = some (PyError.ioError Sensor.ready_timeout_msg) := by
  have hr := is_ready_poll_all_false (fun _ => false) (fun _ => rfl) 100 0
  constructor <;> simp [Sensor.measure, Sensor.is_ready, hr]

/-- C5 (amended): if no falling-edge ready event is observed within the
5-second timeout, is_ready fails with the ReadyTimeout IOError and no
retry is attempted; but measure catches that IOError in its own
`except IOError` handler and prints it, returning normally after the
single trigger write — the error is not propagated to measure's caller. -/
theorem ready_timeout_printed_not_raised (events : Nat → Bool)
    (trigger_byte : Nat) (particle_sensor : Int) (d : DeviceBlocks)
    (h : ∀ i, events i = false) :
    Sensor.is_ready events
        = Except.error (PyError.ioError Sensor.ready_timeout_msg)
      ∧ Sensor.measure trigger_byte events particle_sensor d
        = { ops := [BusOp.write_byte SensorConstants.i2c_7bit_address
              trigger_byte],
            printed := some (PyError.ioError Sensor.ready_timeout_msg),
            raised := none, data := none } := by
  have hr : Sensor.is_ready events
      = Except.error (PyError.ioError Sensor.ready_timeout_msg) :=
    is_ready_poll_all_false events h 100 0
  exact ⟨hr, by simp [Sensor.measure, hr]⟩

/-- Witness for the C5 theorem at the all-false event stream. -/
theorem ready_timeout_printed_not_raised_witness :
    Sensor.measure 0xE5 (fun _ => false) 0 ⟨[], [], [], [], []⟩
      = { ops := [BusOp.write_byte SensorConstants.i2c_7bit_address 0xE5],
          printed := some (PyError.ioError Sensor.ready_timeout_msg),
          raised := none, data := none } :=
  (ready_timeout_printed_not_raised (fun _ => false) 0xE5 0
    ⟨[], [], [], [], []⟩ (fun _ => rfl)).2

/-- C3: the cancellation requested by stop_cycle is never observed by the
cycle loop: even with the flag set to False and the iteration count beyond
20, the loop condition of _run_cycle still evaluates to true (it tests the
truthiness of the uncalled bound method `is_active`, not the flag), so the
loop does not terminate on cancellation; moreover every bus operation of a
loop iteration is a category block read — _run_cycle contains no write at
all, in particular it never writes the standby trigger byte. -/
theorem run_cycle_never_observes_cancellation (s : CycleStatus)
    (count : Nat) (particle_sensor : Int) (d : DeviceBlocks) :
    Sensor.run_cycle_loop_condition (Sensor.stop_cycle s) count = true
      ∧ (Sensor.stop_cycle s).is_active = false
      ∧ (Sensor.run_cycle_iteration_ops particle_sensor d).all
          BusOp.is_read = true := by
  refine ⟨rfl, rfl, ?_⟩
  simp only [Sensor.run_cycle_iteration_ops, Sensor._get_all_data,
    Sensor.get_air_data, Sensor.get_air_quality_data, Sensor.get_light_data,
    Sensor.get_sound_data, Sensor.get_particle_data]
  cases Sensor._extract_air_data d.air with
  | error e => rfl
  | ok air =>
    cases Sensor._extract_air_quality_data d.air_quality with
    | error e => rfl
    | ok aq =>
      cases Sensor._extract_light_data d.light with
      | error e => rfl
      | ok light =>
        cases Sensor._extract_sound_data d.sound with
        | error e => rfl
        | ok sound =>
          cases Sensor._extract_particle_data particle_sensor d.particle with
          | error e => rfl
          | ok particle => rfl

/-- Witness for the C2 theorem at mode 1 and cycle time 3. -/
theorem sensor_mode_init_always_type_error_witness :
    (SensorMode.init (some 1) (some 3)).2
        = some (PyError.typeError SensorMode.type_error_msg)
      ∧ Sensor.change_sensor_mode (some 1) (some 3)
        = Except.error (PyError.typeError SensorMode.type_error_msg) := by
  have h := sensor_mode_init_always_type_error (some 1) (some 3)
  exact ⟨h.1, h.2.2.2.2.1⟩

/-- Witness for the C3 theorem: after stop_cycle, at count 100, the loop
condition is still true. -/
theorem run_cycle_never_observes_cancellation_witness :
    Sensor.run_cycle_loop_condition (Sensor.stop_cycle ⟨true⟩) 100 = true :=
  (run_cycle_never_observes_cancellation ⟨true⟩ 100 0
    ⟨[], [], [], [], []⟩).1

/-- Witness for the C4 theorem at the raw block [9, 9, 9]. -/
theorem particle_off_null_decode_read_still_issued_witness :
    Sensor.get_particle_data SensorConstants.particle_sensor_off [9, 9, 9]
      = ([BusOp.read_block SensorConstants.i2c_addr_7bit_sb_open
            SensorConstants.particle_data_read
            SensorConstants.particle_data_bytes],
         Except.ok { duty_cycle_pc := none, concentration := none,
                     conc_unit := none, particle_data_valid := false }) :=
  particle_off_null_decode_read_still_issued [9, 9, 9]

end SensorPkg
